import Mathlib

/-!
# CampusConvo voice front-end: shallow embedding and verification

This file embeds the voice turn-taking controller of the CampusConvo
repository (`src/client_wake_word.py`, `server/config.py`,
`server/api_server.py`) in Lean 4 and settles the specification claims
about it.

Conventions:
* Python `str` values are modelled as `List Char`; `str.lower`, `str.strip`
  and the substring operator `in` are embedded below as `pyLower`, `pyStrip`
  and `substrOf`.
* A classified audio frame is a `Bool`: `true` means the VAD classified the
  frame as speech, `false` as silence.  The frame *stream* read from the
  microphone is modelled as a `List Bool` prefix of the infinite stream; an
  embedded loop that exhausts its input list without hitting any of the
  source code's exit conditions reports that it is still running.
-/

namespace CampusConvo

/-- Python `str.lower()` (ASCII-faithful), on the `List Char` model. -/
def pyLower (s : List Char) : List Char := s.map Char.toLower

/-- Python `str.strip()`: remove whitespace from both ends. -/
def pyStrip (s : List Char) : List Char :=
  ((s.dropWhile Char.isWhitespace).reverse.dropWhile Char.isWhitespace).reverse

/-- Boolean "p is a prefix of t" helper for the substring test. -/
def startsWithB : List Char → List Char → Bool
  | [], _ => true
  | _ :: _, [] => false
  | a :: as, b :: bs => a == b && startsWithB as bs

/-- Python's substring operator `p in t`: `p` occurs contiguously in `t`
(the empty string occurs in every string). -/
def substrOf (p : List Char) (t : List Char) : Bool :=
  match t with
  | [] => startsWithB p []
  | _ :: ts => startsWithB p t || substrOf p ts

/-! ## Configuration constants (`server/config.py`, `src/client_wake_word.py`)

The client reads 16-bit PCM at `RECORDING_RATE = 16000` Hz in chunks of
`RECORDING_CHUNK = 320` samples (`client_wake_word.py` lines 118-119), so a
source expression `int(x * RECORDING_RATE / RECORDING_CHUNK)` converting a
duration of `x` seconds to a frame count is embedded as `framesOfTenths`
applied to `x` in tenths of a second (all the durations appearing in the
source are multiples of 0.1 s, so the conversion is exact). -/

/-- Constant `RECORDING_RATE = 16000` (`client_wake_word.py` line 118). -/
def RECORDING_RATE : Nat := 16000

/-- Constant `RECORDING_CHUNK = 320` (`client_wake_word.py` line 119). -/
def RECORDING_CHUNK : Nat := 320

/-- Source expression `int(x * RECORDING_RATE / RECORDING_CHUNK)` for a duration of
`tenths / 10` seconds. -/
def framesOfTenths (tenths : Nat) : Nat :=
  tenths * RECORDING_RATE / (10 * RECORDING_CHUNK)

/-- Configured `SILENCE_THRESHOLD = 2.0` seconds (`server/config.py` line 84), in frames. -/
def silenceThresholdFrames : Nat := framesOfTenths 20

/-- Configured `MAX_RECORDING_DURATION = 10` seconds (`server/config.py` line 85), in frames. -/
def maxRecordingFrames : Nat := framesOfTenths 100

/-- Configured `MIN_CONSECUTIVE_SPEECH = 0.2` seconds (`server/config.py` line 86), in
frames.  The constant is defined in the configuration but never imported nor
used by `client_wake_word.py`. -/
def minConsecutiveSpeechFrames : Nat := framesOfTenths 2

/-- Configured `QUERY_SILENCE_THRESHOLD = 1.0` seconds (`server/config.py` line 93), in frames. -/
def querySilenceThresholdFrames : Nat := framesOfTenths 10

/-- Configured `QUERY_MAX_DURATION = 10` seconds (`server/config.py` line 94), in frames. -/
def queryMaxFrames : Nat := framesOfTenths 100

/-- Configured `MAX_CONSECUTIVE_ERRORS = 3` (`server/config.py` line 97).  Its import in
`client_wake_word.py` line 78 is commented out with the note `# unused`. -/
def MAX_CONSECUTIVE_ERRORS : Nat := 3

/-- Configured `EXIT_COMMANDS = ["bye zyra", "goodbye zyra", "exit"]`
(`server/config.py` line 69). -/
def EXIT_COMMANDS : List (List Char) :=
  ["bye zyra".data, "goodbye zyra".data, "exit".data]

/-! ## The endpointing capture: `record_audio_continuous`
(`client_wake_word.py` lines 360-430)

Loop state of the capture: the retained frames (`frames` in the source,
here keeping each frame's classification), the `speech_detected` flag and
the `silence_frames` run counter. -/

structure RecState where
  frames : List Bool
  speech_detected : Bool
  silence_frames : Nat
deriving Repr, DecidableEq

/-- How the `while len(frames) < max_frames` loop of
`record_audio_continuous` ends on a given finite prefix of the frame
stream. -/
inductive LoopExit where
  /-- the `break` at line 407: the silence-run counter reached the
  threshold (`silence_frames >= silence_frames_threshold`). -/
  | silenceBreak (st : RecState)
  /-- the loop condition failed: `len(frames) >= max_frames`. -/
  | budgetExit (st : RecState)
  /-- the supplied stream prefix is exhausted but no exit condition has
  fired: in the running program the loop would block on the next
  `stream.read` and keep iterating. -/
  | streamPending (st : RecState)
deriving Repr, DecidableEq

/-- The body of `record_audio_continuous`'s capture loop
(`client_wake_word.py` lines 390-407), fed the classification of each
frame in turn:

```python
while len(frames) < max_frames:
    frame = stream.read(RECORDING_CHUNK, exception_on_overflow=False)
    is_speech = vad.is_speech(frame, RECORDING_RATE)
    if is_speech:
        speech_detected = True
        frames.append(frame)
        silence_frames = 0
    elif speech_detected:
        frames.append(frame)
        silence_frames += 1
        if silence_frames >= silence_frames_threshold:
            break
```
-/
def recLoop (thresh maxF : Nat) : List Bool → RecState → LoopExit
  | [], st =>
    if st.frames.length ≥ maxF then .budgetExit st else .streamPending st
  | f :: rest, st =>
    if st.frames.length ≥ maxF then .budgetExit st
    else if f then
      recLoop thresh maxF rest ⟨st.frames ++ [f], true, 0⟩
    else if st.speech_detected then
      let st' : RecState := ⟨st.frames ++ [f], st.speech_detected, st.silence_frames + 1⟩
      if st'.silence_frames ≥ thresh then .silenceBreak st'
      else recLoop thresh maxF rest st'
    else
      recLoop thresh maxF rest st

/-- Terminal reason of a capture, from the spec's vocabulary. -/
inductive Reason where
  | silenceTimeout
  | maxDurationReached
  | noSpeechDetected
deriving Repr, DecidableEq

/-- Observable result of `record_audio_continuous`. -/
inductive CaptureResult where
  /-- the recording was written to the output file (`return output_file`),
  with the classifications of the retained frames and the reason the loop
  ended. -/
  | saved (frames : List Bool) (reason : Reason)
  /-- Source line `if not speech_detected: return None` (lines 412-414). -/
  | noSpeech
  /-- the loop is still running after consuming the whole supplied stream
  prefix. -/
  | stillRunning (st : RecState)
deriving Repr, DecidableEq

/-- The post-loop logic of `record_audio_continuous`
(`client_wake_word.py` lines 409-424): `if not speech_detected: return None`,
otherwise write the WAV file and return it.  The terminal reason labels the
way the loop ended, in the spec's vocabulary. -/
def captureFinish : LoopExit → CaptureResult
  | .silenceBreak st =>
    if st.speech_detected then .saved st.frames .silenceTimeout else .noSpeech
  | .budgetExit st =>
    if st.speech_detected then .saved st.frames .maxDurationReached else .noSpeech
  | .streamPending st => .stillRunning st

/-- Function `record_audio_continuous(output_file, silence_threshold, max_duration)`
(`client_wake_word.py` lines 360-430) on a finite prefix of the classified
frame stream: runs the capture loop from the initial state
`frames = [], speech_detected = False, silence_frames = 0` and then applies
the post-loop logic of lines 409-424. -/
def record_audio_continuous (thresh maxF : Nat) (input : List Bool) : CaptureResult :=
  captureFinish (recLoop thresh maxF input ⟨[], false, 0⟩)

/-! ## The Wake-Word Gate's capture pass
(`SimpleWakeWordDetector._listen_loop`, `client_wake_word.py` lines 161-247)

One iteration of the gate's outer `while self.is_running` loop runs a short
bounded capture (`for _ in range(max_frames)` with
`max_frames = int(3 * RECORDING_RATE / RECORDING_CHUNK) = 150`) and then
decides whether to contact the remote transcription endpoint. -/

/-- Value `int(3 * RECORDING_RATE / RECORDING_CHUNK)` (`client_wake_word.py` line 169). -/
def wakeMaxFrames : Nat := 150

/-- Value `int(0.5 * RECORDING_RATE / RECORDING_CHUNK)` (`client_wake_word.py` line 190). -/
def wakeSilenceBreakFrames : Nat := 25

/-- The gate's bounded capture loop (`client_wake_word.py` lines 172-191):

```python
for _ in range(max_frames):
    audio_chunk = self.audio_stream.read(RECORDING_CHUNK, exception_on_overflow=False)
    is_speech = self.vad.is_speech(audio_chunk, RECORDING_RATE)
    if is_speech:
        speech_detected = True
        frames.append(audio_chunk)
        silence_frames = 0
    elif speech_detected:
        frames.append(audio_chunk)
        silence_frames += 1
        if silence_frames > int(0.5 * RECORDING_RATE / RECORDING_CHUNK):
            break
```

`fuel` is the remaining `range` budget; the loop also stops when the
supplied stream prefix runs out (the real loop would block reading). -/
def wakeCollect (fuel : Nat) (input : List Bool) (st : RecState) : RecState :=
  match fuel, input with
  | 0, _ => st
  | _ + 1, [] => st
  | n + 1, f :: rest =>
    if f then
      wakeCollect n rest ⟨st.frames ++ [f], true, 0⟩
    else if st.speech_detected then
      let st' : RecState := ⟨st.frames ++ [f], st.speech_detected, st.silence_frames + 1⟩
      if st'.silence_frames > wakeSilenceBreakFrames then st'
      else wakeCollect n rest st'
    else
      wakeCollect n rest st

/-- After the bounded capture, the gate submits the audio to the remote
transcription endpoint only under
`if speech_detected and len(frames) > 5:` (`client_wake_word.py` line 194);
otherwise it loops again without any remote call. -/
def gateMakesRemoteCall (st : RecState) : Bool :=
  st.speech_detected && decide (st.frames.length > 5)

/-! ## Wake-word matching
(`SimpleWakeWordDetector.__init__` line 136 and `_listen_loop` lines 217-229) -/

/-- Assignment `self.wake_words = [w.lower() for w in wake_words]`
(`client_wake_word.py` line 136). -/
def wakeWordsInit (ws : List (List Char)) : List (List Char) := ws.map pyLower

/-- Assignment `text = result.get("text", "").lower().strip()`
(`client_wake_word.py` line 220): the transformation applied to the raw
extracted transcript before the containment test. -/
def listenTextOf (raw : List Char) : List Char := pyStrip (pyLower raw)

/-- The wake-word scan of `_listen_loop` (lines 224-229): iterate over
`self.wake_words`; at the first `wake_word in text` hit, fire the
activation callback and `break`.  Returns the phrase that fired, if any. -/
def wakeScan (storedWords : List (List Char)) (text : List Char) : Option (List Char) :=
  storedWords.find? (fun w => substrOf w text)

/-- Whether a successful transcription `raw` makes the detector raise the
activation event, for configured wake phrases `ws`: the composition of
`__init__`'s lower-casing, line 220's `lower().strip()`, and the scan. -/
def wakeDetected (ws : List (List Char)) (raw : List Char) : Bool :=
  (wakeScan (wakeWordsInit ws) (listenTextOf raw)).isSome

/-! ## The server's transcription response
(`server/api_server.py` lines 71-77 and 275-304)

`VoiceResponse` is the FastAPI response model of `/voice/transcribe`; its
JSON serialization carries exactly the keys `status`, `transcription` and
`error`.  A JSON object is modelled as an association list. -/

inductive JVal where
  | str (s : List Char)
  | jnull
deriving Repr, DecidableEq

/-- JSON body of a `/voice/transcribe` response: the serialization of
`VoiceResponse(status=..., transcription=..., error=...)`
(`server/api_server.py` lines 71-77, 297-301). -/
def VoiceResponseJson (status : List Char) (transcription error : Option (List Char)) :
    List (String × JVal) :=
  [("status", .str status),
   ("transcription", match transcription with | some t => .str t | none => .jnull),
   ("error", match error with | some e => .str e | none => .jnull)]

/-- Dictionary lookup on a parsed JSON object. -/
def jsonLookup (d : List (String × JVal)) (k : String) : Option JVal :=
  (d.find? (fun p => p.1 == k)).map (fun p => p.2)

/-- Python `result.get(k, "")` specialised to the string fields the client
reads: the stored string if the key is present with a string value, the
empty-string default if the key is absent.  (No key the client reads with a
default is ever null in the bodies considered here.) -/
def jsonGetStr (d : List (String × JVal)) (k : String) : List Char :=
  match jsonLookup d k with
  | some (.str s) => s
  | _ => []

/-- The `result.get("status")` equality test against `"success"`
(`client_wake_word.py` lines 219, 630): a missing or null `status` compares
unequal. -/
def statusIsSuccess (d : List (String × JVal)) : Bool :=
  jsonLookup d "status" == some (.str "success".data)

/-! ## The Conversation State Machine's query turn
(`wake_word_voice_assistant`, `client_wake_word.py` lines 611-722)

After a wake activation, the greeting, and a successful query recording,
one loop iteration POSTs the audio to `/voice/transcribe` and then branches
on the response.  The observable behaviour of that iteration is embedded as
`conversationTurn`: which state the session ends the turn in, which remote
contracts were invoked, and whether the wake-word detector was resumed. -/

/-- Outcome of the client's `requests.post` to `/voice/transcribe` for the
query: `none` models a raised `requests` exception (connection error or
timeout, handled at lines 714-722); `some r` a completed HTTP exchange. -/
structure HttpResp where
  status_code : Nat
  body : List (String × JVal)
deriving Repr, DecidableEq

/-- Where the session stands when the loop iteration ends. -/
inductive TurnResult where
  /-- the iteration ended with `continue` (or fell through to the next
  `wake_word_event.wait()`): back to idle listening. -/
  | backToIdle
  /-- the iteration ended with `detector.cleanup(); return`
  (lines 674-675): the session terminates. -/
  | exitSession
deriving Repr, DecidableEq

/-- Observable trace of one query turn. -/
structure TurnTrace where
  result : TurnResult
  /-- was `send_query_and_get_response` (the Answer contract, line 678) called? -/
  calledAnswer : Bool
  /-- was `/voice/synthesize` (the Synthesize contract) called for the
  goodbye (line 649) or the answer (line 683)? -/
  calledSynthesize : Bool
  /-- was `detector.resume()` called before the turn ended? -/
  resumedDetector : Bool
deriving Repr, DecidableEq

/-- One query turn of `wake_word_voice_assistant`
(`client_wake_word.py` lines 611-722), starting from the transcription
POST of the recorded question:

```python
if query_response.status_code != 200: ... detector.resume(); continue
query_result = query_response.json()
if query_result.get("status") != "success": ... detector.resume(); continue
query = query_result.get("transcription", "").strip()
if not query or len(query) < 3: ... detector.resume(); continue
query_lower = query.lower()
if any(cmd in query_lower for cmd in EXIT_COMMANDS):
    ... goodbye synthesis ... detector.cleanup(); return
response_text = await send_query_and_get_response(query)
if response_text: ... synthesis ...
detector.resume()
```

A `requests` exception (`resp = none`) lands in the handlers of lines
714-722, which also `detector.resume()` and continue.  `answerText` is the
text the Answer contract returns when it is called. -/
def conversationTurn (exitCmds : List (List Char)) (resp : Option HttpResp)
    (answerText : List Char) : TurnTrace :=
  match resp with
  | none => ⟨.backToIdle, false, false, true⟩
  | some r =>
    if r.status_code ≠ 200 then ⟨.backToIdle, false, false, true⟩
    else if ¬ statusIsSuccess r.body then ⟨.backToIdle, false, false, true⟩
    else
      let query := pyStrip (jsonGetStr r.body "transcription")
      if query.length < 3 then ⟨.backToIdle, false, false, true⟩
      else
        let ql := pyLower query
        if exitCmds.any (fun cmd => substrOf cmd ql) then
          ⟨.exitSession, false, true, false⟩
        else if answerText.length ≠ 0 then ⟨.backToIdle, true, true, true⟩
        else ⟨.backToIdle, true, false, true⟩

/-- Did the transcription step of a turn fail (non-200 HTTP status,
non-`success` JSON status, or a raised `requests` exception)? -/
def transcribeFailed (resp : Option HttpResp) : Bool :=
  match resp with
  | none => true
  | some r => decide (r.status_code ≠ 200) || !statusIsSuccess r.body

/-- The consecutive-error counter after a turn.  The source maintains no
such counter: the `MAX_CONSECUTIVE_ERRORS` import is commented out with
`# unused` (`client_wake_word.py` line 78) and the main loop notes
`# Track consecutive errors if needed (not used currently)` (line 562), so
no statement of `wake_word_voice_assistant` updates any error count and
its value is carried through every turn unchanged. -/
def consecutiveErrorsAfter (c : Nat) (resp : Option HttpResp) : Nat :=
  match resp with
  | _ => c

/-- The session's `while True` loop (`client_wake_word.py` lines 565-722)
driven by a list of query turns (one `(resp, answerText)` pair per wake
activation): the loop only ends when some turn reaches the
`detector.cleanup(); return` of the exit branch. -/
def sessionRun (exitCmds : List (List Char)) :
    List (Option HttpResp × List Char) → TurnResult
  | [] => .backToIdle
  | (r, a) :: rest =>
    match (conversationTurn exitCmds r a).result with
    | .exitSession => .exitSession
    | .backToIdle => sessionRun exitCmds rest

/-! ## Device arbitration between the gate and the state machine
(`client_wake_word.py` lines 161-256 and 565-609)

`SimpleWakeWordDetector.pause` (lines 249-250) is
`self.is_running = False` and nothing else: it neither joins the listener
thread nor waits for it to observe the flag.  The listener thread checks
`self.is_running` before each blocking `audio_stream.read`
(lines 163, 172-178); the main coroutine, after calling `detector.pause()`
(line 569), proceeds directly to `record_audio_continuous` (line 602),
which opens its own input stream and reads the device.

The interleaving of the two tasks is embedded as a labelled step relation
on a small state: the shared `is_running` flag, the gate thread's position
and the main task's position.  A task "holds the device" while it is inside
a blocking read of its input stream. -/

/-- Position of the gate's listener thread in its read loop. -/
inductive GatePC where
  /-- about to test `self.is_running` before the next read. -/
  | checkFlag
  /-- inside `self.audio_stream.read(...)` (holding the device). -/
  | reading
  /-- returned from `_listen_loop` after observing `is_running == False`. -/
  | stopped
deriving Repr, DecidableEq

/-- Position of the main coroutine around an activation. -/
inductive MainPC where
  /-- woken by the wake event, about to call `detector.pause()`. -/
  | activated
  /-- Position after `detector.pause()` has returned. -/
  | pausedGate
  /-- inside `record_audio_continuous`'s `stream.read` (holding the device). -/
  | recording
deriving Repr, DecidableEq

structure ArbState where
  is_running : Bool
  gate : GatePC
  main : MainPC
deriving Repr, DecidableEq

/-- Interleaving labels: which task performs its next step. -/
inductive ArbLabel where
  /-- gate: test `self.is_running`; enter the read if it is set, return
  from `_listen_loop` otherwise (lines 163, 172-174). -/
  | gateCheck
  /-- gate: the blocking `audio_stream.read` returns (line 176). -/
  | gateReadDone
  /-- main: `detector.pause()`, i.e. `self.is_running = False`
  (lines 249-250, 569). -/
  | mainPause
  /-- main: enter `record_audio_continuous`'s first `stream.read`
  (lines 391, 602). -/
  | mainStartRecord
deriving Repr, DecidableEq

/-- One step of the interleaved system; `none` when the label is not
enabled in the given state. -/
def arbStep (l : ArbLabel) (s : ArbState) : Option ArbState :=
  match l with
  | .gateCheck =>
    if s.gate = .checkFlag then
      some { s with gate := if s.is_running then .reading else .stopped }
    else none
  | .gateReadDone =>
    if s.gate = .reading then some { s with gate := .checkFlag } else none
  | .mainPause =>
    if s.main = .activated then
      some { s with is_running := false, main := .pausedGate }
    else none
  | .mainStartRecord =>
    if s.main = .pausedGate then some { s with main := .recording } else none

/-- Run a list of interleaving labels from a state. -/
def arbRun : List ArbLabel → ArbState → Option ArbState
  | [], s => some s
  | l :: ls, s => (arbStep l s).bind (arbRun ls)

/-- The gate holds the device lease while inside its blocking read. -/
def gateHoldsDevice (s : ArbState) : Bool := s.gate = .reading

/-- The state machine holds the device lease while inside
`record_audio_continuous`'s read. -/
def mainHoldsDevice (s : ArbState) : Bool := s.main = .recording

/-- State at the instant the wake event fires: the gate runs with the flag
set, the main coroutine is about to pause it. -/
def arbInit : ArbState := ⟨true, .checkFlag, .activated⟩

/-! ## Frame-size legality and startup
(`server/config.py` lines 77-80, `client_wake_word.py` lines 110-159, 370-393)

The configuration comment at `server/config.py` line 78 records the
external classifier's contract: `webrtcvad requires 10, 20, or 30 ms`
frames.  A call `vad.is_speech(frame, rate)` with any other frame size
raises an error at the call site. -/

/-- The webrtcvad frame contract: `chunk` samples at `rate` Hz last exactly
10, 20 or 30 ms (`server/config.py` line 78). -/
def legalVadFrame (rate chunk : Nat) : Bool :=
  chunk * 1000 == rate * 10 || chunk * 1000 == rate * 20 || chunk * 1000 == rate * 30

/-- Outcome of one `vad.is_speech(frame, rate)` call. -/
inductive VadOutcome where
  /-- the classifier returned a speech/silence verdict. -/
  | classified (speech : Bool)
  /-- the library raised: the frame size is not a legal 10/20/30 ms frame
  for the rate.  Inside `record_audio_continuous` the raise is caught at
  lines 426-428 (`return None`); inside `_listen_loop` at lines 244-247
  (warn and keep looping).  Both are runtime paths, inside a capture. -/
  | invalidFrameError
deriving Repr, DecidableEq

/-- Call `vad.is_speech(frame, rate)` where the frame's true classification
would be `speech`: classifies when the frame size is legal, raises
otherwise. -/
def vad_is_speech (rate chunk : Nat) (speech : Bool) : VadOutcome :=
  if legalVadFrame rate chunk then .classified speech else .invalidFrameError

inductive StartupOutcome where
  | started
  | rejectedConfig
deriving Repr, DecidableEq

/-- The client's startup path — `main` (lines 732-769), then
`wake_word_voice_assistant` (lines 506-558), then
`SimpleWakeWordDetector.start` (lines 139-159) — contains no check of the
configured frame size against the webrtcvad contract before the capture
loops call `vad.is_speech`; startup succeeds for every `(rate, chunk)`
configuration. -/
def clientStartup (_rate _chunk : Nat) : StartupOutcome := .started

end CampusConvo

/-! # Settling the claims -/

namespace CampusConvo

/-- Auxiliary: no interleaving step restarts a stopped gate thread
(nothing in the source sets `is_running` back to `True` except `resume`,
which is not part of a pause interval). -/
theorem arbStep_stopped_of_stopped (l : ArbLabel) (s s₁ : ArbState)
    (hstop : s.gate = .stopped) (h : arbStep l s = some s₁) : s₁.gate = .stopped := by
  cases l with
  | gateCheck => simp [arbStep, hstop] at h
  | gateReadDone => simp [arbStep, hstop] at h
  | mainPause =>
    simp only [arbStep] at h
    split at h
    · injection h with h; subst h; exact hstop
    · exact absurd h (by simp)
  | mainStartRecord =>
    simp only [arbStep] at h
    split at h
    · injection h with h; subst h; exact hstop
    · exact absurd h (by simp)

/-- C1, counterexample.  The claim says the DeviceLease is never held by
both tasks and that `pause` is synchronous (the state machine observes the
gate fully stopped before acquiring the device).  On the code this fails:
`pause` only sets `is_running = False` (lines 249-250) without joining the
listener thread, and the main coroutine proceeds straight to its own
recording.  The interleaving below — the gate passes its flag check and
enters a blocking read, then the main task pauses and starts recording —
is a valid run of the embedded step system reaching a state in which both
tasks hold the device simultaneously. -/
theorem claim1_counterexample :
    arbRun [.gateCheck, .mainPause, .mainStartRecord] arbInit
      = some ⟨false, .reading, .recording⟩ ∧
    gateHoldsDevice ⟨false, .reading, .recording⟩ = true ∧
    mainHoldsDevice ⟨false, .reading, .recording⟩ = true := by decide

/-- C1 (amended): pausing the Wake-Word Gate is signal-only, not
synchronous — the Conversation State Machine does not wait for the gate to
stop, and the two tasks can overlap on the device (see the
counterexample).  What does hold is the bounded cooperative stop: once the
gate's flag check observes `is_running == False` it returns from
`_listen_loop`, and along every subsequent interleaving it remains stopped
and never holds the device again. -/
theorem claim1_amended (ls : List ArbLabel) (s s' : ArbState)
    (hstop : s.gate = .stopped) (hrun : arbRun ls s = some s') :
    s'.gate = .stopped ∧ gateHoldsDevice s' = false := by
  induction ls generalizing s with
  | nil =>
    simp [arbRun] at hrun
    subst hrun
    exact ⟨hstop, by simp [gateHoldsDevice, hstop]⟩
  | cons l rest ih =>
    simp only [arbRun, Option.bind_eq_some] at hrun
    obtain ⟨s₁, h1, h2⟩ := hrun
    exact ih s₁ (arbStep_stopped_of_stopped l s s₁ hstop h1) h2

/-- C1 (amended), witness: a concrete run from a stopped-gate state. -/
theorem claim1_amended_witness :
    (ArbState.mk true .stopped .activated).gate = .stopped ∧
    (ArbState.mk false .stopped .pausedGate).gate = .stopped ∧
    gateHoldsDevice (ArbState.mk false .stopped .pausedGate) = false := by
  refine ⟨rfl, ?_⟩
  exact claim1_amended [.mainPause] ⟨true, .stopped, .activated⟩
    ⟨false, .stopped, .pausedGate⟩ rfl (by decide)

set_option maxRecDepth 10000 in
/-- C2, counterexample.  The claim says that when no speech run reaches the
configured min-consecutive-speech duration (10 frames at the configured
0.2 s) the capture never leaves Armed, retains nothing, and ends with
no-speech-detected.  On the code a single speech frame — a run of length 1,
far below 10 — immediately sets `speech_detected` and is retained, and the
capture ends as a saved recording with reason silence-timeout. -/
theorem claim2_counterexample :
    (true :: List.replicate 100 false).count true = 1 ∧
    1 < minConsecutiveSpeechFrames ∧
    record_audio_continuous silenceThresholdFrames maxRecordingFrames
      (true :: List.replicate 100 false)
      = .saved (true :: List.replicate 100 false) .silenceTimeout := by decide

/-- C2 (amended): recording starts on the very first speech frame —
`MIN_CONSECUTIVE_SPEECH` is not enforced (it is never imported by the
client) — so the capture stays Armed, retaining no frames, only on a
stream with no speech frame at all; on such a stream no exit condition of
the loop ever fires (cf. C3). -/
theorem claim2_amended (thresh maxF : Nat) (input : List Bool)
    (hmax : 0 < maxF) (hall : ∀ b ∈ input, b = false) :
    record_audio_continuous thresh maxF input = .stillRunning ⟨[], false, 0⟩ := by
  have key : ∀ l : List Bool, (∀ b ∈ l, b = false) →
      recLoop thresh maxF l ⟨[], false, 0⟩ = .streamPending ⟨[], false, 0⟩ := by
    intro l
    induction l with
    | nil => intro _; simp [recLoop]; omega
    | cons f rest ih =>
      intro h
      have hf : f = false := h f (List.mem_cons_self f rest)
      subst hf
      have hrest := ih fun b hb => h b (List.mem_cons_of_mem _ hb)
      simp only [recLoop]
      rw [if_neg (by simp; omega)]
      simpa using hrest
  rw [record_audio_continuous, key input hall]
  rfl

/-- C2 (amended), witness: a two-frame all-silence stream. -/
theorem claim2_amended_witness :
    (0 : Nat) < maxRecordingFrames ∧
    record_audio_continuous silenceThresholdFrames maxRecordingFrames [false, false]
      = .stillRunning ⟨[], false, 0⟩ := by
  refine ⟨by decide, ?_⟩
  exact claim2_amended _ _ [false, false] (by decide) (by decide)

set_option maxRecDepth 10000 in
/-- C3: on an all-silence stream the claim expects the capture to stop when
the max-duration frame budget is exhausted and return an empty Utterance
with reason no-speech-detected.  The query capture's loop condition
`while len(frames) < max_frames` counts *retained* frames, and an
all-silence stream retains none, so after consuming a full budget's worth
of frames (500 = `queryMaxFrames`) the loop has terminated nothing and is
still running — it never stops on its own.  The Wake-Word Gate's own pass
(a bounded `for` loop) does behave as claimed: on 150 all-silence frames it
retains nothing and makes no remote call. -/
theorem claim3_thm :
    queryMaxFrames = 500 ∧
    record_audio_continuous querySilenceThresholdFrames queryMaxFrames
      (List.replicate 500 false) = .stillRunning ⟨[], false, 0⟩ ∧
    wakeCollect wakeMaxFrames (List.replicate 150 false) ⟨[], false, 0⟩ = ⟨[], false, 0⟩ ∧
    gateMakesRemoteCall ⟨[], false, 0⟩ = false := by decide

/-- C4: in the Recording phase (`speech_detected = true`, silence run below
the threshold, retained frames within budget) the capture's exit is exactly
characterised: a silence break ends the capture with reason silence-timeout
at the moment the trailing silence run reaches the threshold, with the
retained frames still within the max-duration budget; a budget exit ends it
with reason max-duration-reached exactly when the retained-frame count
reaches the budget, the silence run never having reached the threshold; and
while neither has happened the capture is still below both bounds. -/
theorem claim4_thm (thresh maxF : Nat) (input : List Bool) (st : RecState)
    (hsd : st.speech_detected = true)
    (hsil : st.silence_frames < thresh)
    (hlen : st.frames.length ≤ maxF) :
    (∀ st', recLoop thresh maxF input st = .silenceBreak st' →
      captureFinish (.silenceBreak st') = .saved st'.frames .silenceTimeout ∧
      st'.silence_frames = thresh ∧ st'.frames.length ≤ maxF) ∧
    (∀ st', recLoop thresh maxF input st = .budgetExit st' →
      captureFinish (.budgetExit st') = .saved st'.frames .maxDurationReached ∧
      st'.frames.length = maxF ∧ st'.silence_frames < thresh) ∧
    (∀ st', recLoop thresh maxF input st = .streamPending st' →
      st'.frames.length < maxF ∧ st'.silence_frames < thresh) := by
  revert st
  induction input with
  | nil =>
    intro st hsd hsil hlen
    by_cases hb : st.frames.length ≥ maxF
    · have heq : recLoop thresh maxF [] st = .budgetExit st := by
        simp only [recLoop]; rw [if_pos hb]
      rw [heq]
      refine ⟨?_, ?_, ?_⟩ <;> intro st' h
      · cases h
      · cases h; exact ⟨by simp [captureFinish, hsd], by omega, hsil⟩
      · cases h
    · have heq : recLoop thresh maxF [] st = .streamPending st := by
        simp only [recLoop]; rw [if_neg hb]
      rw [heq]
      refine ⟨?_, ?_, ?_⟩ <;> intro st' h
      · cases h
      · cases h
      · cases h; exact ⟨by omega, hsil⟩
  | cons f rest ih =>
    intro st hsd hsil hlen
    by_cases hb : st.frames.length ≥ maxF
    · have heq : recLoop thresh maxF (f :: rest) st = .budgetExit st := by
        simp only [recLoop]; rw [if_pos hb]
      rw [heq]
      refine ⟨?_, ?_, ?_⟩ <;> intro st' h
      · cases h
      · cases h; exact ⟨by simp [captureFinish, hsd], by omega, hsil⟩
      · cases h
    · cases f with
      | true =>
        have heq : recLoop thresh maxF (true :: rest) st
            = recLoop thresh maxF rest ⟨st.frames ++ [true], true, 0⟩ := by
          simp only [recLoop]; rw [if_neg hb, if_pos trivial]
        rw [heq]
        exact ih ⟨st.frames ++ [true], true, 0⟩ rfl (show (0 : Nat) < thresh by omega)
          (show (st.frames ++ [true]).length ≤ maxF by simp; omega)
      | false =>
        by_cases hs : st.silence_frames + 1 ≥ thresh
        · have heq : recLoop thresh maxF (false :: rest) st
              = .silenceBreak ⟨st.frames ++ [false], st.speech_detected,
                  st.silence_frames + 1⟩ := by
            simp only [recLoop]
            rw [if_neg hb, if_neg (by simp), if_pos hsd, if_pos hs]
          rw [heq]
          refine ⟨?_, ?_, ?_⟩ <;> intro st' h
          · cases h
            exact ⟨by simp [captureFinish, hsd],
              show st.silence_frames + 1 = thresh by omega,
              show (st.frames ++ [false]).length ≤ maxF by simp; omega⟩
          · cases h
          · cases h
        · have heq : recLoop thresh maxF (false :: rest) st
              = recLoop thresh maxF rest ⟨st.frames ++ [false], st.speech_detected,
                  st.silence_frames + 1⟩ := by
            simp only [recLoop]
            rw [if_neg hb, if_neg (by simp), if_pos hsd, if_neg hs]
          rw [heq]
          exact ih _ hsd (show st.silence_frames + 1 < thresh by omega)
            (show (st.frames ++ [false]).length ≤ maxF by simp; omega)

/-- C4, witness: a Recording-phase run (threshold 2 frames, budget 5) whose
trailing silence run reaches the threshold first. -/
theorem claim4_witness :
    (RecState.mk [true] true 0).speech_detected = true ∧
    (RecState.mk [true] true 0).silence_frames < 2 ∧
    (RecState.mk [true] true 0).frames.length ≤ 5 ∧
    recLoop 2 5 [false, false] ⟨[true], true, 0⟩
      = .silenceBreak ⟨[true, false, false], true, 2⟩ ∧
    (captureFinish (.silenceBreak ⟨[true, false, false], true, 2⟩)
        = .saved [true, false, false] .silenceTimeout ∧
      (RecState.mk [true, false, false] true 2).silence_frames = 2 ∧
      (RecState.mk [true, false, false] true 2).frames.length ≤ 5) := by
  refine ⟨rfl, by decide, by decide, by decide, ?_⟩
  exact (claim4_thm 2 5 [false, false] ⟨[true], true, 0⟩ rfl (by decide) (by decide)).1
    ⟨[true, false, false], true, 2⟩ (by decide)

/-- C5, counterexample.  The claim's example asserts that transcript
"Hello, Zyra please" matches the phrase "hello zyra".  It does not: the
lower-cased transcript is "hello, zyra please", which does not contain
"hello zyra" as an exact substring (the comma intervenes), so the code
raises no activation — contradicting the claim's example (and consistent
with the claim's own containment rule). -/
theorem claim5_counterexample :
    substrOf (pyLower "hello zyra".data) (pyLower "Hello, Zyra please".data) = false ∧
    wakeDetected ["hello zyra".data] "Hello, Zyra please".data = false := by decide

/-- C5 (amended): the activation event is raised iff some configured wake
phrase, lower-cased, occurs as an exact substring of the lower-cased (and
whitespace-stripped) transcript.  "hello zyra please" matches phrase
"hello zyra"; "Hello, Zyra please" (see the counterexample) and
"hell o zyra" do not. -/
theorem claim5_amended :
    (∀ (ws : List (List Char)) (t : List Char),
      wakeDetected ws t = true ↔
        ∃ w ∈ ws, substrOf (pyLower w) (pyStrip (pyLower t)) = true) ∧
    wakeDetected ["hello zyra".data] "hello zyra please".data = true ∧
    wakeDetected ["hello zyra".data] "hell o zyra".data = false := by
  refine ⟨?_, by decide, by decide⟩
  intro ws t
  simp only [wakeDetected, wakeScan, wakeWordsInit, listenTextOf,
    List.find?_isSome, List.mem_map]
  constructor
  · rintro ⟨x, ⟨w, hw, rfl⟩, hx⟩
    exact ⟨w, hw, hx⟩
  · rintro ⟨w, hw, hx⟩
    exact ⟨pyLower w, ⟨w, hw, rfl⟩, hx⟩

/-- C5 (amended), witness: the containment criterion instantiated on the
matching example. -/
theorem claim5_amended_witness :
    wakeDetected ["hello zyra".data] "hello zyra please".data = true :=
  claim5_amended.2.1

/-- C6: a successful transcript of length at least 3 that contains a
configured exit phrase drives the turn to session exit — the goodbye is
synthesized and the detector is cleaned up rather than resumed — without
the Answer contract (`send_query_and_get_response`) ever being called. -/
theorem claim6_thm (t answerText : List Char)
    (hlen : 3 ≤ (pyStrip t).length)
    (hexit : ∃ cmd ∈ EXIT_COMMANDS, substrOf cmd (pyLower (pyStrip t)) = true) :
    conversationTurn EXIT_COMMANDS
      (some ⟨200, VoiceResponseJson "success".data (some t) none⟩) answerText
      = ⟨.exitSession, false, true, false⟩ := by
  have hs : statusIsSuccess (VoiceResponseJson "success".data (some t) none) = true := rfl
  have hq : jsonGetStr (VoiceResponseJson "success".data (some t) none) "transcription"
      = t := rfl
  have hany : EXIT_COMMANDS.any (fun cmd => substrOf cmd (pyLower (pyStrip t))) = true := by
    rw [List.any_eq_true]
    obtain ⟨c, hc, hsub⟩ := hexit
    exact ⟨c, hc, hsub⟩
  simp only [conversationTurn, hs, hq]
  rw [if_neg (by simp), if_neg (by simp), if_neg (by omega), if_pos hany]

/-- C6, witness: the spec's own scenario, transcript "okay bye zyra" with
exit phrase "bye zyra". -/
theorem claim6_witness :
    3 ≤ (pyStrip "okay bye zyra".data).length ∧
    conversationTurn EXIT_COMMANDS
      (some ⟨200, VoiceResponseJson "success".data (some "okay bye zyra".data) none⟩)
      "".data = ⟨.exitSession, false, true, false⟩ := by
  refine ⟨by decide, ?_⟩
  exact claim6_thm "okay bye zyra".data "".data (by decide)
    ⟨"bye zyra".data, by decide, by decide⟩

/-- C7, counterexample.  On a failed transcription (HTTP 500) the turn does
return to idle listening with the detector resumed and neither Answer nor
Synthesize called — but the claim's "increments the consecutive-error
counter by exactly 1" fails: the code maintains no such counter (its
config import is commented out as unused), so its value after the failing turn is
unchanged, not incremented. -/
theorem claim7_counterexample :
    transcribeFailed (some ⟨500, []⟩) = true ∧
    conversationTurn EXIT_COMMANDS (some ⟨500, []⟩) "".data
      = ⟨.backToIdle, false, false, true⟩ ∧
    ¬ consecutiveErrorsAfter 0 (some ⟨500, []⟩) = 0 + 1 := by decide

/-- C7 (amended): whenever the Transcribe call for a query fails (network
exception, non-200 status, or non-success JSON status), the turn returns to
idle listening, resumes the Wake-Word Gate, and calls neither the Answer
nor the Synthesize contract; no consecutive-error counter exists, so any
such count is unchanged. -/
theorem claim7_amended (resp : Option HttpResp) (answerText : List Char) (c : Nat)
    (hfail : transcribeFailed resp = true) :
    conversationTurn EXIT_COMMANDS resp answerText = ⟨.backToIdle, false, false, true⟩ ∧
    consecutiveErrorsAfter c resp = c := by
  refine ⟨?_, rfl⟩
  match resp with
  | none => rfl
  | some r =>
    simp only [transcribeFailed, Bool.or_eq_true, decide_eq_true_eq,
      Bool.not_eq_true'] at hfail
    rcases hfail with h | h
    · simp [conversationTurn, h]
    · by_cases h2 : r.status_code = 200
      · simp [conversationTurn, h2, h]
      · simp [conversationTurn, h2]

/-- C7 (amended), witness: an HTTP 503 failure with the counter at 2. -/
theorem claim7_amended_witness :
    transcribeFailed (some ⟨503, []⟩) = true ∧
    (conversationTurn EXIT_COMMANDS (some ⟨503, []⟩) "".data
        = ⟨.backToIdle, false, false, true⟩ ∧
      consecutiveErrorsAfter 2 (some ⟨503, []⟩) = 2) := by
  refine ⟨by decide, ?_⟩
  exact claim7_amended (some ⟨503, []⟩) "".data 2 (by decide)

/-- C8: the claim (and `server/config.py`'s own comment,
"Exit after this many consecutive errors") expects the session to
transition to Exiting when `MAX_CONSECUTIVE_ERRORS = 3` consecutive remote
calls fail.  The code never does: no error count is kept, every failing
turn resumes the gate and loops, so after any number `n` of consecutive
transcription failures — in particular more than `MAX_CONSECUTIVE_ERRORS` —
the session is still in idle listening, never Exiting. -/
theorem claim8_thm (n : Nat) :
    sessionRun EXIT_COMMANDS (List.replicate n (none, "".data)) = .backToIdle := by
  induction n with
  | zero => rfl
  | succ m ih =>
    rw [List.replicate_succ]
    simpa [sessionRun, conversationTurn] using ih

/-- C9, counterexample.  The claim says an illegal frame duration is
rejected fatally at startup, before any capture loop runs.  The code has no
startup validation: with an illegal chunk of 300 samples at 16 kHz
(18.75 ms, not one of 10/20/30 ms) startup succeeds, and the violation
surfaces only as the classifier raising inside a capture — precisely the
runtime classification error the claim excludes.  (The shipped constant
320 is legal, which is why the default configuration happens to work.) -/
theorem claim9_counterexample :
    legalVadFrame RECORDING_RATE 300 = false ∧
    clientStartup RECORDING_RATE 300 = .started ∧
    vad_is_speech RECORDING_RATE 300 true = .invalidFrameError ∧
    legalVadFrame RECORDING_RATE RECORDING_CHUNK = true := by decide

/-- C9 (amended): an illegal frame duration is never checked at startup —
startup succeeds for every configuration — and every classification call of
a capture then fails at runtime with the library's invalid-frame error
(caught inside `record_audio_continuous` and `_listen_loop`). -/
theorem claim9_amended (rate chunk : Nat) (hbad : legalVadFrame rate chunk = false) :
    clientStartup rate chunk = .started ∧
    ∀ speech, vad_is_speech rate chunk speech = .invalidFrameError := by
  refine ⟨rfl, fun speech => ?_⟩
  simp [vad_is_speech, hbad]

/-- C9 (amended), witness: chunk of 100 samples at 16 kHz (6.25 ms). -/
theorem claim9_amended_witness :
    legalVadFrame RECORDING_RATE 100 = false ∧
    clientStartup RECORDING_RATE 100 = .started ∧
    vad_is_speech RECORDING_RATE 100 true = .invalidFrameError := by
  refine ⟨by decide, ?_, ?_⟩
  · exact (claim9_amended RECORDING_RATE 100 (by decide)).1
  · exact (claim9_amended RECORDING_RATE 100 (by decide)).2 true

/-- C10: every `/voice/transcribe` response body carries the transcript
only under the key "transcription" — there is no "text" key — while the
simple detector extracts `result.get("text", "")`.  The extracted text is
therefore always the empty string, and for any set of non-empty wake
phrases the containment test never raises the activation event. -/
theorem claim10_thm (status : List Char) (tr err : Option (List Char))
    (ws : List (List Char)) (hws : ∀ w ∈ ws, w ≠ []) :
    jsonLookup (VoiceResponseJson status tr err) "text" = none ∧
    jsonGetStr (VoiceResponseJson status tr err) "text" = [] ∧
    wakeDetected ws (jsonGetStr (VoiceResponseJson status tr err) "text") = false := by
  refine ⟨rfl, rfl, ?_⟩
  have hscan : wakeScan (wakeWordsInit ws)
      (listenTextOf (jsonGetStr (VoiceResponseJson status tr err) "text")) = none := by
    rw [wakeScan, List.find?_eq_none]
    intro x hx
    obtain ⟨w, hw, rfl⟩ := List.mem_map.mp hx
    have hne : w ≠ [] := hws w hw
    cases w with
    | nil => exact absurd rfl hne
    | cons a as => simp [listenTextOf, pyStrip, pyLower, substrOf, startsWithB]
  simp [wakeDetected, hscan]

/-- C10, witness: a successful response transcribing "hello zyra there",
against the client's configured phrases. -/
theorem claim10_witness :
    jsonLookup (VoiceResponseJson "success".data (some "hello zyra there".data) none)
      "text" = none ∧
    jsonGetStr (VoiceResponseJson "success".data (some "hello zyra there".data) none)
      "text" = [] ∧
    wakeDetected ["hello zyra".data, "hey zyra".data]
      (jsonGetStr (VoiceResponseJson "success".data (some "hello zyra there".data) none)
        "text") = false := by
  exact claim10_thm "success".data (some "hello zyra there".data) none
    ["hello zyra".data, "hey zyra".data] (by decide)

end CampusConvo
